import Mathlib

/-!
Verification of the Spark data-lake ETL pipeline (etl.py).

The pipeline reads catalog (song) records and event (log) records, builds
five tables — song, artist, user, time, songplay — and persists each one as
parquet under an output root.  We embed the dataframe computations as pure
functions on lists of records: a Spark dataframe becomes a Lean list of rows,
column projections become structure projections, `where` clauses become list
filters, `dropDuplicates` becomes `List.dedup`, and joins become nested list
traversals.  Floating-point columns (duration, length, latitude, longitude)
are modelled as rationals: the pipeline only ever compares them for exact
equality, which rationals reproduce faithfully for the literal values
appearing in the data.  Every nullable Spark column is an `Option`.

The Python udf `lambda x: datetime.fromtimestamp(x / 1000.0)` converts epoch
milliseconds to a civil datetime in the timezone of the machine running the
job; we therefore parametrise all calendar derivations by the environment's
UTC offset `off` (in seconds).  The Spark SQL functions hour, dayofmonth,
weekofyear, month, year and dayofweek are embedded below via the standard
civil-from-days calendar algorithm; dayofweek follows Spark's documented
convention (1 = Sunday .. 7 = Saturday) and weekofyear is the ISO-8601 week
number (the week of the Thursday of the current Monday-based week).
-/

namespace SparkETL

/-- Raw catalog record, with the fields of the schema in create_song_schema.
All columns are nullable, as in the Spark schema. -/
structure SongRecord where
  num_songs : Option Int := none
  artist_id : Option String := none
  artist_latitude : Option Rat := none
  artist_longitude : Option Rat := none
  artist_location : Option String := none
  artist_name : Option String := none
  song_id : Option String := none
  title : Option String := none
  duration : Option Rat := none
  year : Option Int := none
deriving DecidableEq, Repr

/-- Raw event record, with the fields of the schema in create_log_schema. -/
structure LogRecord where
  artist : Option String := none
  auth : Option String := none
  firstName : Option String := none
  gender : Option String := none
  itemInSession : Option Int := none
  lastName : Option String := none
  length : Option Rat := none
  level : Option String := none
  location : Option String := none
  method : Option String := none
  page : Option String := none
  registration : Option Rat := none
  sessionId : Option Int := none
  song : Option String := none
  status : Option Int := none
  ts : Option Int := none
  userAgent : Option String := none
  userId : Option String := none
deriving DecidableEq, Repr

/-! Calendar arithmetic for the time derivation.  All divisors are positive,
so Int.ediv and Int.emod coincide with floor division and a nonnegative
remainder, matching both Python's division and the calendar algorithms. -/

/-- Seconds since the epoch of the local civil clock produced by
datetime.fromtimestamp: the instant ts (epoch milliseconds) shifted by the
environment's UTC offset off (seconds). -/
def localSeconds (off ts : Int) : Int := ts / 1000 + off

/-- Days since 1970-01-01 of the local civil date. -/
def epochDayOf (off ts : Int) : Int := (localSeconds off ts) / 86400

/-- Second within the local civil day. -/
def secondOfDay (off ts : Int) : Int := (localSeconds off ts) % 86400

/-- Civil (year, month, day) from days since 1970-01-01, by the standard
Gregorian era decomposition. -/
def civilFromDays (z : Int) : Int × Int × Int :=
  let z := z + 719468
  let era := z / 146097
  let doe := z - era * 146097
  let yoe := (doe - doe / 1460 + doe / 36524 - doe / 146096) / 365
  let y := yoe + era * 400
  let doy := doe - (365 * yoe + yoe / 4 - yoe / 100)
  let mp := (5 * doy + 2) / 153
  let d := doy - (153 * mp + 2) / 5 + 1
  let m := mp + (if mp < 10 then 3 else -9)
  (if m ≤ 2 then y + 1 else y, m, d)

/-- Days since 1970-01-01 of a civil (year, month, day): the inverse of
civilFromDays. -/
def daysFromCivil (y m d : Int) : Int :=
  let y := if m ≤ 2 then y - 1 else y
  let era := y / 400
  let yoe := y - era * 400
  let mp := (m + 9) % 12
  let doy := (153 * mp + 2) / 5 + d - 1
  let doe := yoe * 365 + yoe / 4 - yoe / 100 + doy
  era * 146097 + doe - 719468

/-- Spark hour() of the derived start_time. -/
def hourOf (off ts : Int) : Int := (secondOfDay off ts) / 3600

/-- Spark year() of the derived start_time. -/
def yearOf (off ts : Int) : Int := (civilFromDays (epochDayOf off ts)).1

/-- Spark month() of the derived start_time. -/
def monthOf (off ts : Int) : Int := (civilFromDays (epochDayOf off ts)).2.1

/-- Spark dayofmonth() of the derived start_time. -/
def dayOf (off ts : Int) : Int := (civilFromDays (epochDayOf off ts)).2.2

/-- Spark dayofweek() of the derived start_time: 1 = Sunday .. 7 = Saturday
(1970-01-01, epoch day 0, was a Thursday, hence the shift by 4). -/
def weekdayOf (off ts : Int) : Int := (epochDayOf off ts + 4) % 7 + 1

/-- Spark weekofyear() of the derived start_time: the ISO-8601 week number,
computed as one plus the number of whole weeks between the Thursday of the
current Monday-based week and January 1 of that Thursday's year. -/
def weekOf (off ts : Int) : Int :=
  let z := epochDayOf off ts
  let wd := (z + 3) % 7 + 1
  let th := z + (4 - wd)
  let y := (civilFromDays th).1
  (th - daysFromCivil y 1 1) / 7 + 1

/-! Rows of the five derived tables, with the columns selected in etl.py. -/

/-- Row of the songs table: select song_id, title, artist_id, year, duration. -/
structure SongRow where
  song_id : Option String
  title : Option String
  artist_id : Option String
  year : Option Int
  duration : Option Rat
deriving DecidableEq, Repr

/-- Row of the artists table: select artist_id, artist_name, artist_location,
artist_latitude, artist_longitude. -/
structure ArtistRow where
  artist_id : Option String
  artist_name : Option String
  artist_location : Option String
  artist_latitude : Option Rat
  artist_longitude : Option Rat
deriving DecidableEq, Repr

/-- Row of the users table: select userId, firstName, lastName, gender, level. -/
structure UserRow where
  userId : Option String
  firstName : Option String
  lastName : Option String
  gender : Option String
  level : Option String
deriving DecidableEq, Repr

/-- Row of the time table: select ts, hour, day, week, month, year, weekday. -/
structure TimeRow where
  ts : Option Int
  hour : Option Int
  day : Option Int
  week : Option Int
  month : Option Int
  year : Option Int
  weekday : Option Int
deriving DecidableEq, Repr

/-- Row of the song-context dataframe song_df built by the fact builder:
the inner join of the songs and artists tables on artist_id, projected to
artist_id, song_id, duration, artist_name, title. -/
structure ContextRow where
  artist_id : Option String
  song_id : Option String
  duration : Option Rat
  artist_name : Option String
  title : Option String
deriving DecidableEq, Repr

/-- Row of the songplays table: select ts, userId, level, song_id, artist_id,
sessionId, location, userAgent, year, month. -/
structure SongplayRow where
  ts : Option Int
  userId : Option String
  level : Option String
  song_id : Option String
  artist_id : Option String
  sessionId : Option Int
  location : Option String
  userAgent : Option String
  year : Option Int
  month : Option Int
deriving DecidableEq, Repr

/-! Table computations, in one-to-one correspondence with the dataframe
expressions of process_song_data and process_log_data. -/

/-- Songs table: df.select of the five song columns, where song_id is not
null, dropDuplicates. -/
def songs_table (records : List SongRecord) : List SongRow :=
  ((records.map fun r =>
      SongRow.mk r.song_id r.title r.artist_id r.year r.duration).filter
    fun r => r.song_id.isSome).dedup

/-- Artists table: df.select of the five artist columns, where artist_id is
not null, dropDuplicates. -/
def artists_table (records : List SongRecord) : List ArtistRow :=
  ((records.map fun r =>
      ArtistRow.mk r.artist_id r.artist_name r.artist_location
        r.artist_latitude r.artist_longitude).filter
    fun r => r.artist_id.isSome).dedup

/-- The filter by actions for song plays: df.filter(df.page == NextSong).
A null page compares as SQL null, which the filter drops, so only rows whose
page is literally the string NextSong survive. -/
def filterNextSong (logs : List LogRecord) : List LogRecord :=
  logs.filter fun e => e.page = some "NextSong"

/-- Users table: built from the filtered dataframe, select of the five user
columns, where userId is not null, dropDuplicates.  The predicate is the SQL
null test only: an empty-string userId is not null and is kept. -/
def users_table (logs : List LogRecord) : List UserRow :=
  (((filterNextSong logs).map fun e =>
      UserRow.mk e.userId e.firstName e.lastName e.gender e.level).filter
    fun u => u.userId.isSome).dedup

/-- The time row derived from one filtered event: ts copied unchanged, the
six calendar parts derived from the local civil datetime of ts.  The Spark
date functions are null-preserving, so a null ts yields null derived parts. -/
def mkTimeRow (off : Int) (e : LogRecord) : TimeRow :=
  TimeRow.mk e.ts (e.ts.map (hourOf off)) (e.ts.map (dayOf off))
    (e.ts.map (weekOf off)) (e.ts.map (monthOf off)) (e.ts.map (yearOf off))
    (e.ts.map (weekdayOf off))

/-- Time table: one row per filtered event, no deduplication. -/
def time_table (off : Int) (logs : List LogRecord) : List TimeRow :=
  (filterNextSong logs).map (mkTimeRow off)

/-- SQL equality of two nullable columns as used in a join condition: true
only when both sides are non-null and equal (null = anything is SQL null,
which a join treats as no match). -/
def optEq {α : Type} [DecidableEq α] (x y : Option α) : Bool :=
  match x, y with
  | some a, some b => decide (a = b)
  | _, _ => false

/-- Song-context dataframe song_df: inner join of the songs and artists
tables on df1.artist_id == df2.artist_id, selecting artist_id, song_id,
duration, artist_name, title. -/
def song_df (songs : List SongRow) (artists : List ArtistRow) :
    List ContextRow :=
  songs.flatMap fun s =>
    (artists.filter fun a => optEq s.artist_id a.artist_id).map fun a =>
      ContextRow.mk s.artist_id s.song_id s.duration a.artist_name s.title

/-- Join condition of the fact builder: df.song == title AND
df.artist == artist_name AND df.length == duration, all SQL equalities. -/
def playMatch (e : LogRecord) (c : ContextRow) : Bool :=
  optEq e.song c.title && optEq e.artist c.artist_name &&
    optEq e.length c.duration

/-- One songplay output row: event-side columns copied from the event (year
and month are the calendar parts derived by the time enrichment), song_id and
artist_id taken from the matched context row, or null when there is none. -/
def mkSongplay (off : Int) (e : LogRecord) (c : Option ContextRow) :
    SongplayRow :=
  SongplayRow.mk e.ts e.userId e.level (c.bind fun x => x.song_id)
    (c.bind fun x => x.artist_id) e.sessionId e.location e.userAgent
    (e.ts.map (yearOf off)) (e.ts.map (monthOf off))

/-- The left-outer-join contribution of one left-side event row: one row per
matching context row, or a single row with null right-side columns when no
context row matches. -/
def joinOne (off : Int) (ctx : List ContextRow) (e : LogRecord) :
    List SongplayRow :=
  let ms := ctx.filter (playMatch e)
  if ms.isEmpty then [mkSongplay off e none]
  else ms.map fun c => mkSongplay off e (some c)

/-- Songplays table: left outer join of the filtered (and time-enriched)
events against the song-context table on playMatch.  An event with no
matching context row yields exactly one row with null song_id and artist_id;
an event with matching rows yields one output row per match. -/
def songplays_table (off : Int) (logs : List LogRecord)
    (ctx : List ContextRow) : List SongplayRow :=
  (filterNextSong logs).flatMap (joinOne off ctx)

/-! Persistence.  Each write.parquet call in etl.py targets one path under
the output root; we model the output namespace as an association list from
path to persisted table.  The pyspark DataFrameWriter leaves the save mode at
its default, errorifexists, when mode is None (etl.py passes mode=None or no
mode argument at every call site), so writing to a path that already holds a
table is an error, not an overwrite and not an append. -/

/-- A persisted table. -/
inductive Table where
  | songs (rows : List SongRow)
  | artists (rows : List ArtistRow)
  | users (rows : List UserRow)
  | times (rows : List TimeRow)
  | songplays (rows : List SongplayRow)
deriving DecidableEq, Repr

/-- The output namespace: path to persisted table. -/
abbrev Storage := List (String × Table)

/-- DataFrameWriter.parquet with the given mode: None and errorifexists fail
when the path already exists, overwrite replaces the path.  Partitioning and
compression do not affect the persisted row values and are not modelled. -/
def writeParquet (mode : Option String) (store : Storage) (path : String)
    (t : Table) : Except String Storage :=
  if mode = none ∨ mode = some "error" ∨ mode = some "errorifexists" then
    if store.any fun p => p.1 = path then
      Except.error ("path already exists: " ++ path)
    else Except.ok ((path, t) :: store)
  else if mode = some "overwrite" then
    Except.ok ((path, t) :: store.filter fun p => ¬ p.1 = path)
  else Except.error ("unsupported save mode")

/-- spark.read.parquet of the persisted songs table. -/
def readSongs (store : Storage) : Except String (List SongRow) :=
  match store.find? fun p => p.1 = "song.parquet" with
  | some (_, Table.songs rows) => Except.ok rows
  | _ => Except.error "song.parquet unreadable"

/-- spark.read.parquet of the persisted artists table. -/
def readArtists (store : Storage) : Except String (List ArtistRow) :=
  match store.find? fun p => p.1 = "artist.parquet" with
  | some (_, Table.artists rows) => Except.ok rows
  | _ => Except.error "artist.parquet unreadable"

/-- process_song_data: build the songs and artists tables from the catalog
records and persist each one (default save mode at both call sites). -/
def process_song_data (store : Storage) (records : List SongRecord) :
    Except String Storage := do
  let s1 ← writeParquet none store "song.parquet"
    (Table.songs (songs_table records))
  writeParquet none s1 "artist.parquet" (Table.artists (artists_table records))

/-- process_log_data: build and persist the users and time tables from the
filtered events, read the persisted songs and artists tables back, build the
song-context join, and persist the songplays table (default save mode at all
three write call sites). -/
def process_log_data (off : Int) (store : Storage) (logs : List LogRecord) :
    Except String Storage := do
  let s1 ← writeParquet none store "user.parquet"
    (Table.users (users_table logs))
  let s2 ← writeParquet none s1 "time.parquet"
    (Table.times (time_table off logs))
  let songs ← readSongs s2
  let artists ← readArtists s2
  let ctx := song_df songs artists
  writeParquet none s2 "songplay.parquet"
    (Table.songplays (songplays_table off logs ctx))

/-- main: process_song_data then process_log_data against one output root. -/
def runPipeline (off : Int) (store : Storage) (records : List SongRecord)
    (logs : List LogRecord) : Except String Storage := do
  let s1 ← process_song_data store records
  process_log_data off s1 logs

/-- The songplay rows persisted by a pipeline run, when the run succeeded and
the songplay path holds a songplays table. -/
def getSongplays (r : Except String Storage) : Option (List SongplayRow) :=
  match r with
  | Except.ok store =>
    match store.find? fun p => p.1 = "songplay.parquet" with
    | some (_, Table.songplays rows) => some rows
    | _ => none
  | Except.error _ => none

/-! Input file selection.  process_song_data reads the glob
song-data/A/STAR/STAR/STAR.json and process_log_data reads
log_data/STAR/STAR/STAR.json (STAR for the single-segment wildcard); each
wildcard matches exactly one path segment, so the listing has a fixed depth.
A path is a list of segments relative to the input root. -/

/-- Character-list comparison used by the suffix test below. -/
def charsLead : List Char → List Char → Bool
  | [], _ => true
  | _ :: _, [] => false
  | a :: as, b :: bs => decide (a = b) && charsLead as bs

/-- The file name pattern STAR.json: the name ends with the characters
.json (the wildcard also matches the empty name part). -/
def strSuffix (suf f : String) : Bool :=
  charsLead suf.data.reverse f.data.reverse

/-- A path matches the catalog glob iff it has exactly five segments, starts
with song-data then the literal A, and its file name ends in .json. -/
def matchesSongGlob (p : List String) : Bool :=
  match p with
  | [a, b, _, _, f] => a = "song-data" && b = "A" && strSuffix ".json" f
  | _ => false

/-- A path matches the event glob iff it has exactly four segments, starts
with log_data, and its file name ends in .json. -/
def matchesLogGlob (p : List String) : Bool :=
  match p with
  | [a, _, _, f] => a = "log_data" && strSuffix ".json" f
  | _ => false

/-- Modelled from the spec: the recursive-read requirement, which is not what
the code implements.  The spec asks that the extractor read all matching
files under the given root regardless of nesting depth, so a path qualifies
iff it lies under the root directory and names a .json file at any depth. -/
def specRecursiveRead (root : String) (p : List String) : Bool :=
  match p with
  | [] => false
  | a :: rest => a = root && (match rest.getLast? with
    | some f => strSuffix ".json" f
    | none => false)

/-! Concrete records used by the end-to-end scenario, the counterexamples and
the witnesses. -/

/-- The catalog record of the end-to-end scenario of the spec. -/
def catS1 : SongRecord :=
  { song_id := some "S1", title := some "T1", artist_id := some "A1",
    year := some 2000, duration := some 180, artist_name := some "AR1",
    artist_location := some "" }

/-- A second catalog record sharing title, artist name and duration with
catS1 but carrying a different song_id. -/
def catS2 : SongRecord :=
  { song_id := some "S2", title := some "T1", artist_id := some "A1",
    year := some 2000, duration := some 180, artist_name := some "AR1",
    artist_location := some "" }

/-- The event record of the end-to-end scenario of the spec. -/
def evPlay : LogRecord :=
  { page := some "NextSong", song := some "T1", artist := some "AR1",
    length := some 180, userId := some "U1", ts := some 1000000,
    sessionId := some 5, level := some "free", location := some "X",
    userAgent := some "UA" }

/-- A play event at ts = 1541121934796 ms, the instant of the time-derivation
property: 2018-11-02 01:25:34 UTC. -/
def evTs : LogRecord :=
  { page := some "NextSong", userId := some "U2", ts := some 1541121934796 }

/-- A play event whose ts, 259200000 ms, is 1970-01-04, a Sunday. -/
def evSunday : LogRecord :=
  { page := some "NextSong", userId := some "U3", ts := some 259200000 }

/-- A play event whose ts, 172800000 ms, is 1970-01-03, a Saturday. -/
def evSaturday : LogRecord :=
  { page := some "NextSong", userId := some "U4", ts := some 172800000 }

/-- A play event whose userId is the empty string, which is not SQL null. -/
def evEmptyUser : LogRecord :=
  { page := some "NextSong", userId := some "", firstName := some "F",
    lastName := some "L", gender := some "F", level := some "free",
    ts := some 1000000 }

/-! Helper lemmas about the left join. -/

/-- One event always contributes at least one songplay row. -/
theorem one_le_joinOne_length (off : Int) (ctx : List ContextRow)
    (e : LogRecord) : 1 ≤ (joinOne off ctx e).length := by
  unfold joinOne
  cases h : ctx.filter (playMatch e) <;> simp [h]

/-- When an event matches at most one context row, it contributes exactly one
songplay row. -/
theorem joinOne_length_eq_one (off : Int) (ctx : List ContextRow)
    (e : LogRecord) (h : (ctx.filter (playMatch e)).length ≤ 1) :
    (joinOne off ctx e).length = 1 := by
  unfold joinOne
  cases hm : ctx.filter (playMatch e) with
  | nil => simp
  | cons a t =>
    rw [hm] at h
    simp only [List.length_cons] at h
    have ht : t = [] := List.length_eq_zero.mp (by omega)
    subst ht
    simp

/-- The filtered-event list is a lower bound on the songplay row count, with
equality exactly when no event matches more than one context row. -/
theorem songplays_length_flatMap (off : Int) (ctx : List ContextRow) :
    ∀ l : List LogRecord,
      l.length ≤ (l.flatMap (joinOne off ctx)).length ∧
      ((∀ e ∈ l, (ctx.filter (playMatch e)).length ≤ 1) →
        (l.flatMap (joinOne off ctx)).length = l.length) := by
  intro l
  induction l with
  | nil => simp
  | cons e t ih =>
    constructor
    · have h1 := one_le_joinOne_length off ctx e
      simp only [List.flatMap_cons, List.length_append, List.length_cons]
      omega
    · intro h
      have he := h e (by simp)
      have ht := ih.2 fun x hx => h x (by simp [hx])
      simp only [List.flatMap_cons, List.length_append, List.length_cons,
        joinOne_length_eq_one off ctx e he, ht]
      omega

/-- C1.  The claim states that the songplay row count always equals the
filtered-event row count; the left join can in fact duplicate a left-side
row when several song-context rows share a (title, artist_name, duration)
triple.  Two catalog records that differ only in song_id produce two context
rows matching the same event, and the persisted songplay table then holds
two rows for one filtered event. -/
theorem songplay_count_cex :
    (getSongplays (runPipeline 0 [] [catS1, catS2] [evPlay])).map
        List.length = some 2 ∧
    (filterNextSong [evPlay]).length = 1 :=
  ⟨rfl, rfl⟩

/-- C1 (amended).  The left join never drops a left-side row: the songplay
table has at least as many rows as the filtered event set, and the two counts
are equal whenever no filtered event matches more than one row of the
song-context table (in particular whenever the matching context row is
unique or absent for every event). -/
theorem songplay_count_left_join (off : Int) (logs : List LogRecord)
    (ctx : List ContextRow) :
    (filterNextSong logs).length ≤ (songplays_table off logs ctx).length ∧
    ((∀ e ∈ filterNextSong logs, (ctx.filter (playMatch e)).length ≤ 1) →
      (songplays_table off logs ctx).length = (filterNextSong logs).length) :=
  songplays_length_flatMap off ctx (filterNextSong logs)

/-- C2.  A filtered (page NextSong) event whose (song, artist, length) triple
matches no (title, artist_name, duration) triple of the song-context table
still appears in the songplay output, as the row built from the event with a
null context, and that row has null song_id and null artist_id. -/
theorem unmatched_event_kept (off : Int) (logs : List LogRecord)
    (ctx : List ContextRow) (e : LogRecord) (he : e ∈ filterNextSong logs)
    (hnm : ∀ c ∈ ctx, playMatch e c = false) :
    mkSongplay off e none ∈ songplays_table off logs ctx ∧
    (mkSongplay off e none).song_id = none ∧
    (mkSongplay off e none).artist_id = none := by
  refine ⟨?_, rfl, rfl⟩
  have hfil : ctx.filter (playMatch e) = [] := by
    apply List.filter_eq_nil_iff.mpr
    intro c hc
    simp [hnm c hc]
  unfold songplays_table
  apply List.mem_flatMap.mpr
  exact ⟨e, he, by simp [joinOne, hfil]⟩

/-- Witness for C2: the play event at ts 1541121934796 names no song, so it
matches nothing in the context built from the catS1 catalog, yet its null
songplay row is in the output. -/
theorem unmatched_event_kept_witness :
    mkSongplay 0 evTs none ∈ songplays_table 0 [evTs]
        (song_df (songs_table [catS1]) (artists_table [catS1])) ∧
    (mkSongplay 0 evTs none).song_id = none ∧
    (mkSongplay 0 evTs none).artist_id = none :=
  unmatched_event_kept 0 [evTs]
    (song_df (songs_table [catS1]) (artists_table [catS1])) evTs
    (by decide) (by decide)

/-- C3.  The claim states that the time derivation is a function of ts alone,
under one fixed reference calendar shared by all runs.  The conversion
datetime.fromtimestamp uses the timezone of the machine running the job, so
the derived calendar parts also depend on the environment's UTC offset: the
same input event, converted at offset 0 and at offset -18000 (UTC-5),
produces different Time rows. -/
theorem time_depends_on_offset_cex :
    time_table 0 [evTs] ≠ time_table (-18000) [evTs] := by decide

/-- C3 (amended).  The time derivation is a deterministic function of ts and
the environment's UTC offset, not of ts alone; with the offset fixed the
derived row is determined by ts.  At offset 0 (UTC), ts = 1541121934796 ms
decomposes as 2018-11-02 01:25:34: hour 1, day 2, ISO week 44, month 11,
year 2018, weekday 6 (Friday in the Sunday-is-1 convention). -/
theorem time_derivation_utc :
    time_table 0 [evTs] =
      [TimeRow.mk (some 1541121934796) (some 1) (some 2) (some 44) (some 11)
        (some 2018) (some 6)] := by decide

/-- C4.  The claim states that the extractors read all record files under
their roots regardless of nesting depth.  The code lists fixed-depth glob
patterns instead: a catalog file nested one level deeper than
song-data/A/x/y, or outside the A branch, is matched by the recursive read
the spec demands but not by the glob the code uses, and likewise an event
file nested deeper than log_data/x/y. -/
theorem glob_not_recursive_cex :
    specRecursiveRead "song-data" ["song-data", "B", "p", "q", "x.json"]
        = true ∧
    matchesSongGlob ["song-data", "B", "p", "q", "x.json"] = false ∧
    specRecursiveRead "song-data" ["song-data", "A", "p", "q", "r", "x.json"]
        = true ∧
    matchesSongGlob ["song-data", "A", "p", "q", "r", "x.json"] = false ∧
    specRecursiveRead "log_data" ["log_data", "2018", "11", "p", "x.json"]
        = true ∧
    matchesLogGlob ["log_data", "2018", "11", "p", "x.json"] = false := by
  decide

/-- C4 (amended).  The Catalog Extractor reads exactly the files matching the
fixed-depth pattern song-data/A/x/y/f.json (first level fixed to the literal
A, then two wildcard levels, then a .json file name), and the Event Extractor
reads exactly the files matching log_data/x/y/f.json; neither listing is
recursive over arbitrary depths. -/
theorem glob_fixed_depth (p : List String) :
    (matchesSongGlob p = true ↔
      ∃ x y f, p = ["song-data", "A", x, y, f] ∧
        strSuffix ".json" f = true) ∧
    (matchesLogGlob p = true ↔
      ∃ x y f, p = ["log_data", x, y, f] ∧ strSuffix ".json" f = true) := by
  constructor
  · constructor
    · intro h
      rcases p with _ | ⟨a, _ | ⟨b, _ | ⟨x, _ | ⟨y, _ | ⟨f, _ | ⟨g, t⟩⟩⟩⟩⟩⟩ <;>
        simp_all [matchesSongGlob]
      exact ⟨x, y, f, ⟨rfl, rfl, rfl⟩, h.2⟩
    · rintro ⟨x, y, f, rfl, hf⟩
      simp [matchesSongGlob, hf]
  · constructor
    · intro h
      rcases p with _ | ⟨a, _ | ⟨b, _ | ⟨x, _ | ⟨y, _ | ⟨g, t⟩⟩⟩⟩⟩ <;>
        simp_all [matchesLogGlob]
      exact ⟨b, x, y, ⟨rfl, rfl, rfl⟩, h.2⟩
    · rintro ⟨x, y, f, rfl, hf⟩
      simp [matchesLogGlob, hf]

/-- C5.  The claim states that re-running the pipeline against the same
output root overwrites the previously written tables.  Every write call in
etl.py leaves the save mode at its default, errorifexists, so the second run
aborts at its first write, the song table, instead of overwriting. -/
theorem rerun_fails_cex :
    (runPipeline 0 [] [catS1] [evPlay]).bind
        (fun s => runPipeline 0 s [catS1] [evPlay]) =
      Except.error "path already exists: song.parquet" := rfl

/-- C5 (amended).  A pipeline run against an empty output root writes each of
the five tables exactly once and never appends: the resulting storage maps
exactly the five paths song, artist, user, time and songplay, each to a
single table.  Re-running against that same output root does not overwrite
but fails with a path-already-exists error at the first write. -/
theorem write_once_rerun_errors (off : Int) (records : List SongRecord)
    (logs : List LogRecord) :
    ∃ s, runPipeline off [] records logs = Except.ok s ∧
      s.map Prod.fst = ["songplay.parquet", "time.parquet", "user.parquet",
        "artist.parquet", "song.parquet"] ∧
      runPipeline off s records logs =
        Except.error "path already exists: song.parquet" :=
  ⟨[("songplay.parquet", Table.songplays (songplays_table off logs
      (song_df (songs_table records) (artists_table records)))),
    ("time.parquet", Table.times (time_table off logs)),
    ("user.parquet", Table.users (users_table logs)),
    ("artist.parquet", Table.artists (artists_table records)),
    ("song.parquet", Table.songs (songs_table records))],
   rfl, rfl, rfl⟩

/-- C6.  For every catalog input, every row of the songs table carries a
non-null song_id and the table holds no two fully identical rows; likewise
every row of the artists table carries a non-null artist_id and the table
holds no two fully identical rows. -/
theorem song_artist_rows_valid (records : List SongRecord) :
    (∀ r ∈ songs_table records, r.song_id ≠ none) ∧
    (songs_table records).Nodup ∧
    (∀ r ∈ artists_table records, r.artist_id ≠ none) ∧
    (artists_table records).Nodup := by
  refine ⟨?_, List.nodup_dedup _, ?_, List.nodup_dedup _⟩
  · intro r hr
    have h := (List.mem_filter.mp (List.mem_dedup.mp hr)).2
    exact Option.isSome_iff_ne_none.mp h
  · intro r hr
    have h := (List.mem_filter.mp (List.mem_dedup.mp hr)).2
    exact Option.isSome_iff_ne_none.mp h

/-- C7.  Every row of the users table and every row of the time table is the
projection of an input event record whose page is NextSong; events with any
other page value contribute to neither table. -/
theorem user_time_rows_from_next_song (off : Int) (logs : List LogRecord) :
    (∀ u ∈ users_table logs, ∃ e, e ∈ logs ∧ e.page = some "NextSong" ∧
      u = UserRow.mk e.userId e.firstName e.lastName e.gender e.level) ∧
    (∀ t ∈ time_table off logs, ∃ e, e ∈ logs ∧ e.page = some "NextSong" ∧
      t = mkTimeRow off e) := by
  constructor
  · intro u hu
    have h1 := List.mem_filter.mp (List.mem_dedup.mp hu)
    obtain ⟨e, he, rfl⟩ := List.mem_map.mp h1.1
    have h2 := List.mem_filter.mp he
    exact ⟨e, h2.1, by simpa using h2.2, rfl⟩
  · intro t ht
    obtain ⟨e, he, rfl⟩ := List.mem_map.mp ht
    have h2 := List.mem_filter.mp he
    exact ⟨e, h2.1, by simpa using h2.2, rfl⟩

/-- C8.  End-to-end scenario: from the single catalog record catS1 and the
single event record evPlay, the full pipeline persists a songplay table with
exactly one row, and that row has song_id S1, artist_id A1 and userId U1,
whatever the environment's UTC offset. -/
theorem end_to_end_scenario (off : Int) :
    (getSongplays (runPipeline off [] [catS1] [evPlay])).map
        (fun l => (l.length,
          l.map fun r => (r.song_id, r.artist_id, r.userId))) =
      some (1, [(some "S1", some "A1", some "U1")]) := rfl

/-- C9.  Every weekday value written to the time table is an integer between
1 and 7, in the dayofweek convention that numbers Sunday 1 through Saturday
7: the play event of 1970-01-04, a Sunday, derives weekday 1, and the play
event of 1970-01-03, a Saturday, derives weekday 7. -/
theorem weekday_range_and_convention :
    (∀ (off : Int) (logs : List LogRecord), ∀ r ∈ time_table off logs,
      ∀ w, r.weekday = some w → 1 ≤ w ∧ w ≤ 7) ∧
    (time_table 0 [evSunday]).map (fun r => r.weekday) = [some 1] ∧
    (time_table 0 [evSaturday]).map (fun r => r.weekday) = [some 7] := by
  refine ⟨?_, by decide, by decide⟩
  intro off logs r hr w hw
  obtain ⟨e, _, rfl⟩ := List.mem_map.mp hr
  simp only [mkTimeRow, Option.map_eq_some'] at hw
  obtain ⟨t, _, rfl⟩ := hw
  unfold weekdayOf
  have h1 := Int.emod_nonneg (epochDayOf off t + 4) (by decide : (7 : Int) ≠ 0)
  have h2 := Int.emod_lt_of_pos (epochDayOf off t + 4) (by decide : (0 : Int) < 7)
  exact ⟨by linarith, by linarith⟩

/-- C10.  The users-table filter is the SQL null test on userId only: a
NextSong event whose userId is the empty string is kept, and its user row
carries the empty string as userId. -/
theorem empty_user_id_kept (logs : List LogRecord) (e : LogRecord)
    (hmem : e ∈ logs) (hpage : e.page = some "NextSong")
    (huid : e.userId = some "") :
    UserRow.mk e.userId e.firstName e.lastName e.gender e.level ∈
      users_table logs ∧
    (UserRow.mk e.userId e.firstName e.lastName e.gender e.level).userId =
      some "" := by
  refine ⟨?_, huid⟩
  apply List.mem_dedup.mpr
  apply List.mem_filter.mpr
  refine ⟨List.mem_map_of_mem _ ?_, by simp [huid]⟩
  exact List.mem_filter.mpr ⟨hmem, by simp [hpage]⟩

/-- Witness for C10: the concrete NextSong event with empty-string userId
produces its user row, with userId the empty string, in the users table. -/
theorem empty_user_id_kept_witness :
    UserRow.mk evEmptyUser.userId evEmptyUser.firstName evEmptyUser.lastName
        evEmptyUser.gender evEmptyUser.level ∈ users_table [evEmptyUser] ∧
    (UserRow.mk evEmptyUser.userId evEmptyUser.firstName evEmptyUser.lastName
        evEmptyUser.gender evEmptyUser.level).userId = some "" :=
  empty_user_id_kept [evEmptyUser] evEmptyUser (by decide) (by decide)
    (by decide)

end SparkETL
